import Mathlib

/-!
# fluid-engine-dev: CUDA SPH solver base, functors and perspective camera

A shallow embedding of the parts of the repository that the specification
talks about:

* `src/jet/cuda_sph_solver_base3.cpp`  (class `CudaSphSolverBase3`)
* `include/jet/functors.h`             (functor `Clamp`)
* `src/jet.viz/persp_camera.cpp`       (`PerspCamera::updateMatrix`)
* `src/jet.viz/glfw_app.cpp`           (the window registry of `GlfwApp`)

Scalars of type `float` / `double` are embedded as elements of an arbitrary
type `F` (for plain storage) or of an ordered field (for arithmetic), so all
statements are about exact arithmetic.
-/

namespace jet

/-! ## Particle system data (channels) -/

/-- A `float4` value. -/
structure Float4 (F : Type) where
  x : F
  y : F
  z : F
  w : F
deriving DecidableEq

/-- The class `CudaArrayView1<T>` of `include/jet/cuda_array_view1.h`: a device
pointer `_data` and a length `_size`.  The pointer is embedded as the index of
the device array it points into (`none` is the null pointer of the default
constructed view). -/
structure CudaArrayView1 where
  _data : Option Nat
  _size : Nat
deriving DecidableEq

/-- The particle system data object held by the solver.  Only the list of
vector channels is relevant to `CudaSphSolverBase3`; every channel is a device
array of `float4`. -/
structure CudaSphSystemData3 (F : Type) where
  numberOfParticles : Nat
  _vectorDataList : List (List (Float4 F))
deriving DecidableEq

/-- Modelled from the spec: `CudaSphSystemData3::addVectorData` is declared in a
header that is not part of the sources at hand.  Section 3 and 4.3 of the
specification: an auxiliary channel is registered by a solver subtype, it is
backfilled with default values for the existing particle indices, and existing
channels keep their index.  The call returns the index of the new channel. -/
def CudaSphSystemData3.addVectorData {F : Type} [Zero F] (d : CudaSphSystemData3 F) :
    Nat × CudaSphSystemData3 F :=
  (d._vectorDataList.length,
   { d with
     _vectorDataList :=
       d._vectorDataList ++ [List.replicate d.numberOfParticles ⟨0, 0, 0, 0⟩] })

/-- Modelled from the spec: `CudaSphSystemData3::vectorDataAt` is declared in a
header that is not part of the sources at hand.  It hands out a view of the
channel registered under index `idx`; an index that was never registered has no
channel (`none`). -/
def CudaSphSystemData3.vectorDataAt {F : Type} (d : CudaSphSystemData3 F) (idx : Nat) :
    Option CudaArrayView1 :=
  match d._vectorDataList.get? idx with
  | some ch => some ⟨some idx, ch.length⟩
  | none => none

/-! ## `CudaSphSolverBase3` -/

/-- The member variables of `CudaSphSolverBase3` that
`cuda_sph_solver_base3.cpp` reads or writes, together with the two members of
the animation base class behind `setIsUsingFixedSubTimeSteps`.

The source uses two distinct identifiers for a force channel index:
the constructor assigns `_forcesIdx`, the accessor `forces()` reads `_forceIdx`.
Both are kept, as written. -/
structure CudaSphSolverBase3 (F : Type) where
  _isUsingFixedSubTimeSteps : Bool
  _numberOfFixedSubTimeSteps : Nat
  _negativePressureScale : F
  _viscosityCoefficient : F
  _pseudoViscosityCoefficient : F
  _sphSystemData : CudaSphSystemData3 F
  _forcesIdx : Nat
  _forceIdx : Nat
  _smoothedVelIdx : Nat
deriving DecidableEq

namespace CudaSphSolverBase3

variable {F : Type}

/-- Modelled from the spec: the toggle "fixed vs. adaptive sub-step" of the
solver parameters lives in the animation base class, which is not part of the
sources at hand.  Its getter returns the stored flag. -/
def isUsingFixedSubTimeSteps (s : CudaSphSolverBase3 F) : Bool :=
  s._isUsingFixedSubTimeSteps

/-- Modelled from the spec: the setter of the "fixed vs. adaptive sub-step"
toggle of the animation base class (not part of the sources at hand) stores
its argument. -/
def setIsUsingFixedSubTimeSteps (s : CudaSphSolverBase3 F) (isUsing : Bool) :
    CudaSphSolverBase3 F :=
  { s with _isUsingFixedSubTimeSteps := isUsing }

/-- `float CudaSphSolverBase3::negativePressureScale() const`. -/
def negativePressureScale (s : CudaSphSolverBase3 F) : F :=
  s._negativePressureScale

/-- `void CudaSphSolverBase3::setNegativePressureScale(float newNegativePressureScale)`.
The body is `_negativePressureScale = negativePressureScale;`: the right-hand
side names the accessor, the parameter `newNegativePressureScale` is never
read. -/
def setNegativePressureScale (s : CudaSphSolverBase3 F) (_newNegativePressureScale : F) :
    CudaSphSolverBase3 F :=
  { s with _negativePressureScale := negativePressureScale s }

/-- `float CudaSphSolverBase3::viscosityCoefficient() const`. -/
def viscosityCoefficient (s : CudaSphSolverBase3 F) : F :=
  s._viscosityCoefficient

/-- `void CudaSphSolverBase3::setViscosityCoefficient(float newViscosityCoefficient)`.
The body is `_viscosityCoefficient = viscosityCoefficient;`: the right-hand side
names the accessor, the parameter `newViscosityCoefficient` is never read. -/
def setViscosityCoefficient (s : CudaSphSolverBase3 F) (_newViscosityCoefficient : F) :
    CudaSphSolverBase3 F :=
  { s with _viscosityCoefficient := viscosityCoefficient s }

/-- `float CudaSphSolverBase3::pseudoViscosityCoefficient() const`. -/
def pseudoViscosityCoefficient (s : CudaSphSolverBase3 F) : F :=
  s._pseudoViscosityCoefficient

/-- `void CudaSphSolverBase3::setPseudoViscosityCoefficient(float newPseudoViscosityCoefficient)`. -/
def setPseudoViscosityCoefficient (s : CudaSphSolverBase3 F)
    (newPseudoViscosityCoefficient : F) : CudaSphSolverBase3 F :=
  { s with _pseudoViscosityCoefficient := newPseudoViscosityCoefficient }

/-- `CudaSphSystemData3* CudaSphSolverBase3::particleSystemData()`. -/
def particleSystemData (s : CudaSphSolverBase3 F) : CudaSphSystemData3 F :=
  s._sphSystemData

/-- `CudaArrayView1<float4> CudaSphSolverBase3::forces() const`: the channel at
`_forceIdx`. -/
def forces (s : CudaSphSolverBase3 F) : Option CudaArrayView1 :=
  s._sphSystemData.vectorDataAt s._forceIdx

/-- `CudaArrayView1<float4> CudaSphSolverBase3::smoothedVelocities() const`: the
channel at `_smoothedVelIdx`. -/
def smoothedVelocities (s : CudaSphSolverBase3 F) : Option CudaArrayView1 :=
  s._sphSystemData.vectorDataAt s._smoothedVelIdx

/-- The constructor `CudaSphSolverBase3::CudaSphSolverBase3()`.

`pre` is the object as the constructor body finds it (base class constructed,
members default initialised) and `fresh` is the data object that
`std::make_shared<CudaSphSystemData3>()` yields.  The body stores the data
object, registers two vector channels and keeps their indices in `_forcesIdx`
and `_smoothedVelIdx`, then calls `setIsUsingFixedSubTimeSteps(false)`. -/
def construct [Zero F] (pre : CudaSphSolverBase3 F) (fresh : CudaSphSystemData3 F) :
    CudaSphSolverBase3 F :=
  let r1 := fresh.addVectorData
  let r2 := r1.2.addVectorData
  let s : CudaSphSolverBase3 F :=
    { pre with _sphSystemData := r2.2, _forcesIdx := r1.1, _smoothedVelIdx := r2.1 }
  setIsUsingFixedSubTimeSteps s false

/-- A solver state used for concrete evaluation: no particles, no channels,
negative pressure scale 0, viscosity 1/100, pseudo viscosity 10. -/
def sample : CudaSphSolverBase3 ℚ where
  _isUsingFixedSubTimeSteps := true
  _numberOfFixedSubTimeSteps := 1
  _negativePressureScale := 0
  _viscosityCoefficient := 1 / 100
  _pseudoViscosityCoefficient := 10
  _sphSystemData := ⟨0, []⟩
  _forcesIdx := 0
  _forceIdx := 1
  _smoothedVelIdx := 0

end CudaSphSolverBase3

end jet

namespace jet

/-! ## Sub-stepping of `advance` (specification section 4.4) -/

namespace SphSolverBase

/-- Modelled from the spec: the sub-step count of `advance(dt)`, section 4.4,
"computes the number of sub-steps n = ceil(dt / maxSubTimeStep)".  The function
that computes it belongs to the animation base class, which is not part of the
sources at hand. -/
def numberOfSubTimeSteps (dt maxSubTimeStep : ℚ) : ℕ :=
  Int.toNat ⌈dt / maxSubTimeStep⌉

/-- Modelled from the spec: `advance(dt)` of section 4.4 (the animation base
class is not part of the sources at hand).  The number of sub-steps is
`ceil(dt / maxSubTimeStep)` "unless fixed-substep mode overrides this with a
constant count", and "each sub-step executes exactly the state sequence with
dt/n".  The per-sub-step pipeline is the argument `onAdvanceSubTimeStep`. -/
def advance {S : Type} (onAdvanceSubTimeStep : ℚ → S → S)
    (isUsingFixedSubTimeSteps : Bool) (numberOfFixedSubTimeSteps : ℕ)
    (maxSubTimeStep dt : ℚ) (s : S) : S :=
  let n : ℕ :=
    if isUsingFixedSubTimeSteps then numberOfFixedSubTimeSteps
    else numberOfSubTimeSteps dt maxSubTimeStep
  (onAdvanceSubTimeStep (dt / n))^[n] s

/-- A sub-step pipeline that only records the time step it is run with. -/
def recordSubTimeStep (h : ℚ) (log : List ℚ) : List ℚ :=
  log ++ [h]

/-- The time steps of the sub-steps that `advance(dt)` runs, in order. -/
def subTimeSteps (isUsingFixedSubTimeSteps : Bool) (numberOfFixedSubTimeSteps : ℕ)
    (maxSubTimeStep dt : ℚ) : List ℚ :=
  advance recordSubTimeStep isUsingFixedSubTimeSteps numberOfFixedSubTimeSteps
    maxSubTimeStep dt []

end SphSolverBase

/-! ## Equation of state (specification section 4.5) -/

namespace WcSphSolver

/-- Modelled from the spec: the equation of state of section 4.5 (the concrete
WCSPH solver is not part of the sources at hand),
"pressure = stiffness × max(0, (density/targetDensity)^gamma − 1)", where
"negative pressures are clamped to zero when isUsingNegativePressureClamp is
enabled".  The power function of the math library is the argument `pow`. -/
def computePressure {K : Type} [LinearOrderedField K] (pow : K → K → K)
    (isUsingNegativePressureClamp : Bool) (stiffness targetDensity gamma density : K) : K :=
  if isUsingNegativePressureClamp then
    stiffness * max 0 (pow (density / targetDensity) gamma - 1)
  else
    stiffness * (pow (density / targetDensity) gamma - 1)

end WcSphSolver

/-! ## Functors (`include/jet/functors.h`) -/

/-- Modelled from the spec: `Clamp<T>::operator()(a, low, high)` is declared in
`functors.h` as "Clamps the input value with low/high"; its body lives in
`detail/functors-inl.h`, which is not part of the sources at hand.  Values
below `low` give `low`, values above `high` give `high`, other values are
returned as they are. -/
def Clamp {T : Type} [LinearOrder T] (a low high : T) : T :=
  if a < low then low else if a > high then high else a

/-! ## Perspective camera (`src/jet.viz/persp_camera.cpp`) -/

namespace viz

/-- The functions of the C++ math library that `updateMatrix` calls. -/
structure StdMath (K : Type) where
  cos : K → K
  sin : K → K
  sqrt : K → K

/-- The type `Vector3D`. -/
structure Vector3 (K : Type) where
  x : K
  y : K
  z : K

/-- The cross product `Vector3D::cross`, declared in a header that is not part
of the sources at hand. -/
def Vector3.cross {K : Type} [Field K] (a b : Vector3 K) : Vector3 K :=
  ⟨a.y * b.z - b.y * a.z, a.z * b.x - b.z * a.x, a.x * b.y - b.x * a.y⟩

/-- The unit vector `Vector3D::normalized`, declared in a header that is not
part of the sources at hand. -/
def Vector3.normalized {K : Type} [Field K] (m : StdMath K) (a : Vector3 K) : Vector3 K :=
  let l := m.sqrt (a.x * a.x + a.y * a.y + a.z * a.z)
  ⟨a.x / l, a.y / l, a.z / l⟩

/-- The type `Viewport`, declared in a header that is not part of the sources
at hand.  `updateMatrix` uses nothing of it but the value of `aspectRatio()`,
which stands for the viewport here. -/
structure Viewport (K : Type) where
  aspect : K

/-- The camera state `_state` of the `Camera` base class. -/
structure BasicCameraState (K : Type) where
  origin : Vector3 K
  lookAt : Vector3 K
  lookUp : Vector3 K
  nearClipPlane : K
  farClipPlane : K
  viewport : Viewport K

/-- The class `PerspCamera`: the state of the base class and the field of
view. -/
structure PerspCamera (K : Type) where
  _state : BasicCameraState K
  _fieldOfViewInRadians : K
  _matrix : Matrix (Fin 4) (Fin 4) K

/-- The frustum extents computed at the start of `updateMatrix`. -/
structure Frustum (K : Type) where
  left : K
  right : K
  bottom : K
  top : K

namespace PerspCamera

variable {K : Type} [Field K]

/-- Lines 41 to 46 of `PerspCamera::updateMatrix`: the local variables `left`,
`right`, `bottom`, `top`. -/
def frustum (m : StdMath K) (c : PerspCamera K) : Frustum K :=
  let fov_2 := c._fieldOfViewInRadians * (1 / 2)
  let top := c._state.nearClipPlane / (m.cos fov_2 / m.sin fov_2)
  let bottom := -top
  let right := top * c._state.viewport.aspect
  let left := -right
  ⟨left, right, bottom, top⟩

/-- Lines 49 to 61 of `PerspCamera::updateMatrix`: the local matrix
`projection`, whose sixteen entries are given row by row. -/
def projection (m : StdMath K) (c : PerspCamera K) : Matrix (Fin 4) (Fin 4) K :=
  let fr := frustum m c
  let near := c._state.nearClipPlane
  let far := c._state.farClipPlane
  let a := (fr.right + fr.left) / (fr.right - fr.left)
  let b := (fr.top + fr.bottom) / (fr.top - fr.bottom)
  let cc := -(far + near) / (far - near)
  let d := -(2 * far * near) / (far - near)
  !![2 * near / (fr.right - fr.left), 0, a, 0;
     0, 2 * near / (fr.top - fr.bottom), b, 0;
     0, 0, cc, d;
     0, 0, -1, 0]

/-- Lines 64 to 71 of `PerspCamera::updateMatrix`: the local matrix `view`. -/
def view (m : StdMath K) (c : PerspCamera K) : Matrix (Fin 4) (Fin 4) K :=
  let f := c._state.lookAt
  let s := f.cross c._state.lookUp
  let u := (s.normalized m).cross f
  !![s.x, s.y, s.z, 0;
     u.x, u.y, u.z, 0;
     -f.x, -f.y, -f.z, 0;
     0, 0, 0, 1]

/-- The translation matrix `Matrix4x4D::makeTranslationMatrix(-_state.origin)`
of line 74, declared in a header that is not part of the sources at hand. -/
def model (c : PerspCamera K) : Matrix (Fin 4) (Fin 4) K :=
  !![1, 0, 0, -c._state.origin.x;
     0, 1, 0, -c._state.origin.y;
     0, 0, 1, -c._state.origin.z;
     0, 0, 0, 1]

/-- The method `void PerspCamera::updateMatrix()`. -/
def updateMatrix (m : StdMath K) (c : PerspCamera K) : PerspCamera K :=
  { c with _matrix := projection m c * view m c * model c }

/-- The clip-space image of an eye-space point under the projection matrix. -/
def project (m : StdMath K) (c : PerspCamera K) (eye : Fin 4 → K) : Fin 4 → K :=
  Matrix.mulVec (projection m c) eye

/-- The perspective divide of the rendering pipeline, for the depth component:
the normalised depth `z / w` of a clip-space point.  A point with `w = 0` has
no normalised depth. -/
def normalisedDepth [DecidableEq K] (clip : Fin 4 → K) : Option K :=
  if clip 3 = 0 then none else some (clip 2 / clip 3)

/-- A camera given by near plane, far plane, aspect of the viewport and field
of view; it looks down the negative z axis from the origin. -/
def ofParams (near far aspect fov : K) : PerspCamera K where
  _state := ⟨⟨0, 0, 0⟩, ⟨0, 0, -1⟩, ⟨0, 1, 0⟩, near, far, ⟨aspect⟩⟩
  _fieldOfViewInRadians := fov
  _matrix := 1

end PerspCamera

end viz

end jet

/-! ## Window registry of the GLFW application (`src/jet.viz/glfw_app.cpp`) -/

namespace jet

namespace viz

/-- The part of a `GlfwWindow` object that `glfw_app.cpp` reads or writes: the
GLFW handle returned by `glfwWindow()`, the flag returned by
`isAnimationEnabled()` and the member `_numRequestedRenderFrames`.  The class
is declared in a header that is not part of the sources at hand; handles are
embedded as natural numbers and the count as an integer. -/
structure GlfwWindow where
  _window : Nat
  _isAnimationEnabled : Bool
  _numRequestedRenderFrames : Int
deriving DecidableEq

/-- The file-level state of `glfw_app.cpp`: the vector `sWindows` and the
pointer `sCurrentWindow`.  A `GlfwWindowPtr` is embedded as the address of the
object it points to (`none` is the null pointer), and `objects` is the store of
the window objects by address, so that a write through one pointer is seen
through every other pointer to the same object. -/
structure GlfwApp where
  objects : Nat → GlfwWindow
  sWindows : List Nat
  sCurrentWindow : Option Nat

/-- What one pass through the loop of `run` gets from GLFW: the handles for
which `glfwWaitEvents()` delivers an input callback, in order, and the value of
`glfwWindowShouldClose(window)`. -/
structure Pass where
  events : List Nat
  shouldClose : Bool

/-- How far `run` has got: it has left the loop and returned, or it is still
inside the loop, waiting for the next pass. -/
inductive RunResult where
  | returned (s : GlfwApp)
  | waiting (s : GlfwApp)

namespace GlfwApp

/-- The GLFW handle `w->glfwWindow()` of the window object at address `w`. -/
def glfwWindow (s : GlfwApp) (w : Nat) : Nat :=
  (s.objects w)._window

/-- The state before any window is created: `sWindows` is empty and
`sCurrentWindow` is null. -/
def init (objects : Nat → GlfwWindow) : GlfwApp :=
  ⟨objects, [], none⟩

/-- `GlfwWindowPtr GlfwApp::createWindow(title, width, height)`.  The
expression `new GlfwWindow(title, width, height)` yields the object `w` at
address `p`; it becomes the current window and is pushed to the back of
`sWindows`.  The returned pointer is `sCurrentWindow` of the result. -/
def createWindow (s : GlfwApp) (p : Nat) (w : GlfwWindow) : GlfwApp :=
  { objects := Function.update s.objects p w
    sWindows := s.sWindows ++ [p]
    sCurrentWindow := some p }

/-- `GlfwWindowPtr GlfwApp::findWindow(GLFWwindow* glfwWindow)`: the first
element of `sWindows` whose handle equals the query, or null. -/
def findWindow (s : GlfwApp) (glfwWindow : Nat) : Option Nat :=
  s.sWindows.find? (fun w => s.glfwWindow w == glfwWindow)

/-- `void GlfwApp::onSetCurrentWindow(const GlfwWindowPtr& window)`.  The
assertion that `window` is in `sWindows` fails on `none`. -/
def onSetCurrentWindow (s : GlfwApp) (window : Nat) : Option GlfwApp :=
  if window ∈ s.sWindows then some { s with sCurrentWindow := some window } else none

/-- `void GlfwApp::onCloseCurrentWindow(const GlfwWindowPtr& window)`.
`std::find` followed by `erase` removes the first occurrence of `window`;
erasing the end iterator is undefined, hence `none` when `window` is not in
`sWindows`.  When the closed window was current, the current pointer is reset
and, if the vector is not empty, set to its last element. -/
def onCloseCurrentWindow (s : GlfwApp) (window : Nat) : Option GlfwApp :=
  if window ∈ s.sWindows then
    let s1 : GlfwApp := { s with sWindows := s.sWindows.erase window }
    if s1.sCurrentWindow = some window then
      let s2 : GlfwApp := { s1 with sCurrentWindow := none }
      if s2.sWindows.isEmpty then some s2
      else some { s2 with sCurrentWindow := s2.sWindows.getLast? }
    else some s1
  else none

/-- The call `w->requestRender()` on the object at address `w`.  The method is
declared in a header that is not part of the sources at hand; its effect on the
count `_numRequestedRenderFrames` is the argument `requestRender`. -/
def requestRenderAt (requestRender : Int → Int) (s : GlfwApp) (w : Nat) : GlfwApp :=
  { s with
    objects := Function.update s.objects w
      { s.objects w with
        _numRequestedRenderFrames := requestRender (s.objects w)._numRequestedRenderFrames } }

/-- `void GlfwApp::onKey(GLFWwindow* glfwWindow, ...)`, and in the same way
`onMouseButton`, `onMouseCursorEnter`, `onMouseCursorPos`, `onMouseScroll`,
`onChar`, `onCharMods` and `onDrop`: `findWindow`, the assertion
`window != nullptr` (failure is `none`), then `window->requestRender()`.  The
event handlers called afterwards act on parts of the program that are not
modelled. -/
def onKey (requestRender : Int → Int) (s : GlfwApp) (glfwWindow : Nat) : Option GlfwApp :=
  match s.findWindow glfwWindow with
  | none => none
  | some window => some (s.requestRenderAt requestRender window)

/-- The call `glfwWaitEvents()`: GLFW delivers the input callbacks of the
pass, one after the other. -/
def glfwWaitEvents (requestRender : Int → Int) : GlfwApp → List Nat → Option GlfwApp
  | s, [] => some s
  | s, e :: es =>
    match s.onKey requestRender e with
    | none => none
    | some s1 => glfwWaitEvents requestRender s1 es

/-- Lines 62 to 82 of `GlfwApp::run`: when animation is enabled or the count of
the current window is positive, a frame is rendered and the count is decreased
by one.  The calls `resize`, `update`, `render` and the GLFW calls act on parts
of the program that are not modelled. -/
def renderFrame (s : GlfwApp) (cur : Nat) : GlfwApp :=
  if (s.objects cur)._isAnimationEnabled ||
      decide ((s.objects cur)._numRequestedRenderFrames > 0) then
    { s with
      objects := Function.update s.objects cur
        { s.objects cur with
          _numRequestedRenderFrames := (s.objects cur)._numRequestedRenderFrames - 1 } }
  else s

/-- One pass through the body of the loop of `GlfwApp::run` (lines 58 to 86):
the events, the frame of the current window, and the close request. -/
def runPass (requestRender : Int → Int) (s : GlfwApp) (pass : Pass) : Option GlfwApp :=
  match s.glfwWaitEvents requestRender pass.events with
  | none => none
  | some s1 =>
    match s1.sCurrentWindow with
    | none => none
    | some cur =>
      let s2 := s1.renderFrame cur
      if pass.shouldClose then s2.onCloseCurrentWindow cur else some s2

/-- The loop `while (sCurrentWindow != nullptr)` of `GlfwApp::run`, run on the
passes that GLFW supplies. -/
def runLoop (requestRender : Int → Int) : GlfwApp → List Pass → Option RunResult
  | s, [] =>
    match s.sCurrentWindow with
    | none => some (RunResult.returned s)
    | some _ => some (RunResult.waiting s)
  | s, pass :: rest =>
    match s.sCurrentWindow with
    | none => some (RunResult.returned s)
    | some _ =>
      match s.runPass requestRender pass with
      | none => none
      | some s1 => runLoop requestRender s1 rest

/-- `int GlfwApp::run()`: a render request for the current window, if there is
one, then the loop. -/
def run (requestRender : Int → Int) (s : GlfwApp) (passes : List Pass) : Option RunResult :=
  match s.sCurrentWindow with
  | none => runLoop requestRender s passes
  | some cur => runLoop requestRender (s.requestRenderAt requestRender cur) passes

/-- What the environment guarantees for `new GlfwWindow(...)`: the address `p`
of the new object is not the address of a registered window, and its GLFW
handle is not the handle of a registered window. -/
def freshWindow (s : GlfwApp) (p : Nat) (w : GlfwWindow) : Prop :=
  p ∉ s.sWindows ∧ ∀ q ∈ s.sWindows, s.glfwWindow q ≠ w._window

instance (s : GlfwApp) (p : Nat) (w : GlfwWindow) : Decidable (freshWindow s p w) := by
  unfold freshWindow
  infer_instance

/-- The states that the application can be in: reached from the empty registry
by `createWindow` (for new windows that `admits` allows), by
`onSetCurrentWindow` and `onCloseCurrentWindow` with a registered window, and by
writes to a window object that keep its GLFW handle (`requestRender`, the
decrement in `run`). -/
inductive Reachable (admits : GlfwApp → Nat → GlfwWindow → Prop) : GlfwApp → Prop
  | init (objects : Nat → GlfwWindow) : Reachable admits (GlfwApp.init objects)
  | createWindow {s : GlfwApp} (p : Nat) (w : GlfwWindow) :
      Reachable admits s → admits s p w → Reachable admits (s.createWindow p w)
  | onSetCurrentWindow {s s1 : GlfwApp} (p : Nat) :
      Reachable admits s → s.onSetCurrentWindow p = some s1 → Reachable admits s1
  | onCloseCurrentWindow {s s1 : GlfwApp} (p : Nat) :
      Reachable admits s → s.onCloseCurrentWindow p = some s1 → Reachable admits s1
  | write {s : GlfwApp} (p : Nat) (w : GlfwWindow) :
      Reachable admits s → w._window = s.glfwWindow p →
      Reachable admits { s with objects := Function.update s.objects p w }

/-- The state after `RunResult`. -/
def resultState : RunResult → GlfwApp
  | RunResult.returned s => s
  | RunResult.waiting s => s

/-- A registry with two windows: object 0 (handle 10, animation disabled,
count 0) and object 1 (handle 11, animation enabled, count 0), the second one
current. -/
def twoWindows : GlfwApp :=
  createWindow (createWindow (GlfwApp.init (fun _ => ⟨0, false, 0⟩)) 0 ⟨10, false, 0⟩)
    1 ⟨11, true, 0⟩

end GlfwApp

end viz

end jet

/-! # Theorems -/

namespace jet

open CudaSphSolverBase3

/-! ## Setters and getters of `CudaSphSolverBase3` -/

/-- The viscosity setter returns the solver it was given, whatever the argument. -/
theorem setViscosityCoefficient_eq_self {F : Type} (s : CudaSphSolverBase3 F) (x : F) :
    setViscosityCoefficient s x = s := rfl

/-- The negative pressure scale setter returns the solver it was given, whatever
the argument. -/
theorem setNegativePressureScale_eq_self {F : Type} (s : CudaSphSolverBase3 F) (x : F) :
    setNegativePressureScale s x = s := rfl

/-- C1, evaluated on the code: `setViscosityCoefficient` does not store its
argument.  For every solver state and every value the getter
`viscosityCoefficient()` returns the old value afterwards; on the solver
`sample`, which holds 1/100, the call `setViscosityCoefficient(5)` leaves the
getter at 1/100, not at 5. -/
theorem setViscosityCoefficient_drops_argument :
    (∀ (F : Type) (s : CudaSphSolverBase3 F) (x : F),
        viscosityCoefficient (setViscosityCoefficient s x) = viscosityCoefficient s) ∧
    viscosityCoefficient (setViscosityCoefficient sample 5) = 1 / 100 ∧
    viscosityCoefficient (setViscosityCoefficient sample 5) ≠ 5 := by
  refine ⟨fun _ _ _ => rfl, rfl, ?_⟩
  show (1 / 100 : ℚ) ≠ 5
  norm_num

/-- C2, evaluated on the code: `setNegativePressureScale` does not store its
argument.  For every solver state and every value the getter
`negativePressureScale()` returns the old value afterwards; on the solver
`sample`, which holds 0, the call `setNegativePressureScale(1)` leaves the
getter at 0, not at 1. -/
theorem setNegativePressureScale_drops_argument :
    (∀ (F : Type) (s : CudaSphSolverBase3 F) (x : F),
        negativePressureScale (setNegativePressureScale s x) = negativePressureScale s) ∧
    negativePressureScale (setNegativePressureScale sample 1) = 0 ∧
    negativePressureScale (setNegativePressureScale sample 1) ≠ 1 := by
  refine ⟨fun _ _ _ => rfl, rfl, ?_⟩
  show (0 : ℚ) ≠ 1
  norm_num

/-- C3: for every solver state and every value `x`,
`setPseudoViscosityCoefficient(x)` makes `pseudoViscosityCoefficient()` return
`x` and leaves `viscosityCoefficient()`, `negativePressureScale()` and the
particle system data unchanged. -/
theorem setPseudoViscosityCoefficient_frame {F : Type} (s : CudaSphSolverBase3 F) (x : F) :
    pseudoViscosityCoefficient (setPseudoViscosityCoefficient s x) = x ∧
    viscosityCoefficient (setPseudoViscosityCoefficient s x) = viscosityCoefficient s ∧
    negativePressureScale (setPseudoViscosityCoefficient s x) = negativePressureScale s ∧
    particleSystemData (setPseudoViscosityCoefficient s x) = particleSystemData s :=
  ⟨rfl, rfl, rfl, rfl⟩

/-! ## The constructor and the auxiliary channels -/

/-- The two registrations of the constructor yield the indices `k` and `k + 1`,
where `k` is the number of channels of the fresh data object. -/
theorem construct_indices {F : Type} [Zero F] (pre : CudaSphSolverBase3 F)
    (fresh : CudaSphSystemData3 F) :
    (construct pre fresh)._forcesIdx = fresh._vectorDataList.length ∧
    (construct pre fresh)._smoothedVelIdx = fresh._vectorDataList.length + 1 := by
  simp [construct, setIsUsingFixedSubTimeSteps, CudaSphSystemData3.addVectorData]

/-- The constructor leaves the member `_forceIdx`, which `forces()` reads,
as it found it. -/
theorem construct_forceIdx {F : Type} [Zero F] (pre : CudaSphSolverBase3 F)
    (fresh : CudaSphSystemData3 F) :
    (construct pre fresh)._forceIdx = pre._forceIdx := rfl

/-- C4, evaluated on the code: in the solver constructed from the object
`sample` (whose `_forceIdx` holds 1) and an empty data object, the first
registration yields index 0 and the second index 1, `smoothedVelocities()` is
the channel at index 1, but `forces()` is not the channel at index 0: it reads
`_forceIdx`, which the constructor never assigns, and here returns the very
channel that `smoothedVelocities()` returns. -/
theorem forces_reads_unassigned_index :
    (construct sample ⟨0, []⟩)._forcesIdx = 0 ∧
    (construct sample ⟨0, []⟩)._smoothedVelIdx = 1 ∧
    smoothedVelocities (construct sample ⟨0, []⟩) =
      (particleSystemData (construct sample ⟨0, []⟩)).vectorDataAt 1 ∧
    forces (construct sample ⟨0, []⟩) ≠
      (particleSystemData (construct sample ⟨0, []⟩)).vectorDataAt 0 ∧
    forces (construct sample ⟨0, []⟩) = smoothedVelocities (construct sample ⟨0, []⟩) := by
  decide

/-- C8: a newly constructed `CudaSphSolverBase3` is in adaptive sub-stepping
mode, whatever the flag was before the constructor body ran, and the
constructor changes no other solver parameter (negative pressure scale,
viscosity coefficient, pseudo viscosity coefficient, number of fixed
sub-steps). -/
theorem construct_adaptive {F : Type} [Zero F] (pre : CudaSphSolverBase3 F)
    (fresh : CudaSphSystemData3 F) :
    isUsingFixedSubTimeSteps (construct pre fresh) = false ∧
    negativePressureScale (construct pre fresh) = negativePressureScale pre ∧
    viscosityCoefficient (construct pre fresh) = viscosityCoefficient pre ∧
    pseudoViscosityCoefficient (construct pre fresh) = pseudoViscosityCoefficient pre ∧
    (construct pre fresh)._numberOfFixedSubTimeSteps = pre._numberOfFixedSubTimeSteps :=
  ⟨rfl, rfl, rfl, rfl, rfl⟩

/-! ## No validation in the setters -/

/-- C5 fails as stated: the solver `sample` stores the non-negative
coefficients 0, 1/100 and 10, the value -1 is negative, and after
`setPseudoViscosityCoefficient(-1)` the getter `pseudoViscosityCoefficient()`
returns -1, a negative value. -/
theorem setPseudoViscosityCoefficient_stores_negative :
    0 ≤ negativePressureScale sample ∧ 0 ≤ viscosityCoefficient sample ∧
    0 ≤ pseudoViscosityCoefficient sample ∧ (-1 : ℚ) < 0 ∧
    pseudoViscosityCoefficient (setPseudoViscosityCoefficient sample (-1)) = -1 ∧
    ¬ 0 ≤ pseudoViscosityCoefficient (setPseudoViscosityCoefficient sample (-1)) := by
  refine ⟨?_, ?_, ?_, ?_, rfl, ?_⟩
  · show (0 : ℚ) ≤ 0
    norm_num
  · show (0 : ℚ) ≤ 1 / 100
    norm_num
  · show (0 : ℚ) ≤ 10
    norm_num
  · norm_num
  · show ¬ (0 : ℚ) ≤ -1
    norm_num

/-- C5 as amended: the setters do not validate.  For every solver state and
every `x < 0`, `setPseudoViscosityCoefficient(x)` stores `x`: afterwards the
getter returns `x`, which is negative. -/
theorem setPseudoViscosityCoefficient_no_validation {F : Type} [Zero F] [LT F]
    (s : CudaSphSolverBase3 F) (x : F) (hx : x < 0) :
    pseudoViscosityCoefficient (setPseudoViscosityCoefficient s x) = x ∧
    pseudoViscosityCoefficient (setPseudoViscosityCoefficient s x) < 0 :=
  ⟨rfl, hx⟩

/-- Witness of the amended C5 at the solver `sample` and `x = -3`. -/
theorem setPseudoViscosityCoefficient_no_validation_witness :
    (-3 : ℚ) < 0 ∧
    pseudoViscosityCoefficient (setPseudoViscosityCoefficient sample (-3)) = -3 ∧
    pseudoViscosityCoefficient (setPseudoViscosityCoefficient sample (-3)) < 0 :=
  ⟨by norm_num, setPseudoViscosityCoefficient_no_validation sample (-3) (by norm_num)⟩

/-! ## Clamp -/

/-- C9: for integers `a`, `low`, `high` with `low ≤ high`, `Clamp a low high`
lies in `[low, high]`, equals `a` when `low ≤ a ≤ high`, equals `low` when
`a < low`, equals `high` when `a > high`, and clamping a second time changes
nothing. -/
theorem Clamp_spec (a low high : ℤ) (h : low ≤ high) :
    low ≤ Clamp a low high ∧ Clamp a low high ≤ high ∧
    (low ≤ a → a ≤ high → Clamp a low high = a) ∧
    (a < low → Clamp a low high = low) ∧
    (a > high → Clamp a low high = high) ∧
    Clamp (Clamp a low high) low high = Clamp a low high := by
  unfold Clamp
  refine ⟨?_, ?_, ?_, ?_, ?_, ?_⟩
  · split_ifs <;> omega
  · split_ifs <;> omega
  · intro h1 h2
    split_ifs <;> omega
  · intro h1
    split_ifs <;> omega
  · intro h1
    split_ifs <;> omega
  · split_ifs <;> omega

/-- Witness of C9 at `a = 7`, `low = 0`, `high = 5`. -/
theorem Clamp_spec_witness :
    (0 : ℤ) ≤ 5 ∧ Clamp (7 : ℤ) 0 5 = 5 ∧ Clamp (Clamp (7 : ℤ) 0 5) 0 5 = Clamp (7 : ℤ) 0 5 :=
  ⟨by decide, (Clamp_spec 7 0 5 (by decide)).2.2.2.2.1 (by decide),
    (Clamp_spec 7 0 5 (by decide)).2.2.2.2.2⟩

/-! ## Sub-stepping -/

open SphSolverBase WcSphSolver viz viz.PerspCamera

/-- Running the recording pipeline `n` times appends `n` copies of the time
step to the log. -/
theorem iterate_recordSubTimeStep (h : ℚ) (n : ℕ) (log : List ℚ) :
    (recordSubTimeStep h)^[n] log = log ++ List.replicate n h := by
  induction n with
  | zero => simp
  | succ k ih =>
    rw [Function.iterate_succ_apply', ih, List.replicate_succ']
    simp [recordSubTimeStep]

/-- For positive `dt` and `maxSubTimeStep` the sub-step count is positive and
at least `dt / maxSubTimeStep`. -/
theorem numberOfSubTimeSteps_cast (dt m : ℚ) (hdt : 0 < dt) (hm : 0 < m) :
    0 < numberOfSubTimeSteps dt m ∧ dt / m ≤ (numberOfSubTimeSteps dt m : ℚ) := by
  unfold numberOfSubTimeSteps
  have hq : 0 < dt / m := div_pos hdt hm
  have hc : 0 < ⌈dt / m⌉ := Int.ceil_pos.mpr hq
  have hn : ((Int.toNat ⌈dt / m⌉ : ℕ) : ℤ) = ⌈dt / m⌉ := Int.toNat_of_nonneg hc.le
  constructor
  · omega
  · have : ((Int.toNat ⌈dt / m⌉ : ℕ) : ℚ) = ((⌈dt / m⌉ : ℤ) : ℚ) := by
      exact_mod_cast congrArg (fun z : ℤ => (z : ℚ)) hn
    rw [this]
    exact Int.le_ceil _

/-- The sub-steps of `advance(1)` with `maxSubTimeStep = 3/10`: four sub-steps
of 1/4 each. -/
theorem subTimeSteps_eval : subTimeSteps false 0 (3 / 10) 1 = [1 / 4, 1 / 4, 1 / 4, 1 / 4] := by
  have hc : ⌈(10 : ℚ) / 3⌉ = 4 := by
    rw [Int.ceil_eq_iff]; norm_num
  simp [subTimeSteps, advance, numberOfSubTimeSteps, hc, recordSubTimeStep]

/-- C6: in adaptive mode, for every `dt > 0` and `maxSubTimeStep > 0`,
`advance(dt)` runs the sub-step pipeline exactly `n = ceil(dt / maxSubTimeStep)`
times, each time with time step `dt / n`; every sub-step is at most
`maxSubTimeStep` and the sub-steps sum to exactly `dt`. -/
theorem advance_adaptive (dt maxSubTimeStep : ℚ) (k : ℕ) (hdt : 0 < dt)
    (hmax : 0 < maxSubTimeStep) :
    (∀ (S : Type) (f : ℚ → S → S) (s : S),
      advance f false k maxSubTimeStep dt s =
        (f (dt / (Int.toNat ⌈dt / maxSubTimeStep⌉ : ℕ)))^[Int.toNat ⌈dt / maxSubTimeStep⌉] s) ∧
    subTimeSteps false k maxSubTimeStep dt =
      List.replicate (Int.toNat ⌈dt / maxSubTimeStep⌉)
        (dt / (Int.toNat ⌈dt / maxSubTimeStep⌉ : ℕ)) ∧
    (∀ h ∈ subTimeSteps false k maxSubTimeStep dt, h ≤ maxSubTimeStep) ∧
    (subTimeSteps false k maxSubTimeStep dt).sum = dt := by
  obtain ⟨hpos, hle⟩ := numberOfSubTimeSteps_cast dt maxSubTimeStep hdt hmax
  have hlist : subTimeSteps false k maxSubTimeStep dt =
      List.replicate (numberOfSubTimeSteps dt maxSubTimeStep)
        (dt / (numberOfSubTimeSteps dt maxSubTimeStep : ℕ)) := by
    simp [subTimeSteps, advance, iterate_recordSubTimeStep]
  have hnq : (0 : ℚ) < (numberOfSubTimeSteps dt maxSubTimeStep : ℚ) := by exact_mod_cast hpos
  refine ⟨fun S f s => rfl, hlist, ?_, ?_⟩
  · intro h hh
    rw [hlist] at hh
    rw [List.eq_of_mem_replicate hh]
    rw [div_le_iff₀ hnq]
    rw [div_le_iff₀ hmax] at hle
    linarith
  · rw [hlist, List.sum_replicate, nsmul_eq_mul]
    field_simp

/-- Witness of C6 at `dt = 1`, `maxSubTimeStep = 3/10`. -/
theorem advance_adaptive_witness :
    (0 : ℚ) < 1 ∧ (0 : ℚ) < 3 / 10 ∧
    (∀ h ∈ subTimeSteps false 0 (3 / 10) 1, h ≤ 3 / 10) ∧
    (subTimeSteps false 0 (3 / 10) 1).sum = 1 :=
  ⟨by norm_num, by norm_num,
    (advance_adaptive 1 (3 / 10) 0 (by norm_num) (by norm_num)).2.2⟩

/-! ## Equation of state -/

/-- C7: with the negative-pressure clamp enabled the pressure is
`stiffness × max(0, (density/targetDensity)^gamma − 1)`; for `stiffness ≥ 0`,
`targetDensity > 0`, `density ≥ 0` and `gamma ≥ 1` it is never negative, and it
is exactly 0 whenever `density ≤ targetDensity`. -/
theorem computePressure_clamped (stiffness targetDensity gamma density : ℝ)
    (hs : 0 ≤ stiffness) (ht : 0 < targetDensity) (hd : 0 ≤ density) (hg : 1 ≤ gamma) :
    computePressure (fun a b : ℝ => a ^ b) true stiffness targetDensity gamma density =
      stiffness * max 0 ((density / targetDensity) ^ gamma - 1) ∧
    0 ≤ computePressure (fun a b : ℝ => a ^ b) true stiffness targetDensity gamma density ∧
    (density ≤ targetDensity →
      computePressure (fun a b : ℝ => a ^ b) true stiffness targetDensity gamma density = 0) := by
  have heq : computePressure (fun a b : ℝ => a ^ b) true stiffness targetDensity gamma density =
      stiffness * max 0 ((density / targetDensity) ^ gamma - 1) := by
    simp [computePressure]
  refine ⟨heq, ?_, ?_⟩
  · rw [heq]
    exact mul_nonneg hs (le_max_left _ _)
  · intro hle
    rw [heq]
    have h0 : 0 ≤ density / targetDensity := div_nonneg hd ht.le
    have h1 : density / targetDensity ≤ 1 := (div_le_one ht).mpr hle
    have hp : (density / targetDensity) ^ gamma ≤ 1 :=
      Real.rpow_le_one h0 h1 (by linarith)
    rw [max_eq_left (by linarith)]
    simp

/-- Witness of C7 at stiffness 2, target density 1000, gamma 7, density 500. -/
theorem computePressure_clamped_witness :
    (0 : ℝ) ≤ 2 ∧ (0 : ℝ) < 1000 ∧ (0 : ℝ) ≤ 500 ∧ (1 : ℝ) ≤ 7 ∧
    computePressure (fun a b : ℝ => a ^ b) true 2 1000 7 500 = 0 :=
  ⟨by norm_num, by norm_num, by norm_num, by norm_num,
    (computePressure_clamped 2 1000 7 500 (by norm_num) (by norm_num) (by norm_num)
      (by norm_num)).2.2 (by norm_num)⟩

/-! ## Perspective projection -/

/-- A non-zero tangent has non-zero sine and cosine. -/
theorem tan_ne_zero_parts (x : ℝ) (h : Real.tan x ≠ 0) : Real.sin x ≠ 0 ∧ Real.cos x ≠ 0 := by
  rw [Real.tan_eq_sin_div_cos] at h
  constructor
  · intro hs; apply h; rw [hs, zero_div]
  · intro hc; apply h; rw [hc, div_zero]

/-- The frustum top is `near · tan(fov/2)`. -/
theorem frustum_top (c : PerspCamera ℝ)
    (htan : Real.tan (c._fieldOfViewInRadians / 2) ≠ 0) :
    (frustum ⟨Real.cos, Real.sin, Real.sqrt⟩ c).top =
      c._state.nearClipPlane * Real.tan (c._fieldOfViewInRadians / 2) := by
  obtain ⟨hs, hc⟩ := tan_ne_zero_parts _ htan
  have h2 : c._fieldOfViewInRadians * (1 / 2) = c._fieldOfViewInRadians / 2 := by ring
  simp only [frustum, h2, Real.tan_eq_sin_div_cos]
  field_simp

/-- C10 fails as stated: the camera with near plane 1, far plane 0, aspect 1
and field of view π/2 meets every condition of the claim (near > 0,
far ≠ near, tan(fov/2) ≠ 0, aspect ≠ 0), yet the eye-space point (0,0,−far,1)
is projected to a clip-space point with `w = 0`: it has no normalised depth, in
particular not the depth +1. -/
theorem projection_far_zero_no_depth :
    0 < (ofParams (1 : ℝ) 0 1 (Real.pi / 2))._state.nearClipPlane ∧
    (ofParams (1 : ℝ) 0 1 (Real.pi / 2))._state.farClipPlane ≠
      (ofParams (1 : ℝ) 0 1 (Real.pi / 2))._state.nearClipPlane ∧
    Real.tan ((ofParams (1 : ℝ) 0 1 (Real.pi / 2))._fieldOfViewInRadians / 2) ≠ 0 ∧
    (ofParams (1 : ℝ) 0 1 (Real.pi / 2))._state.viewport.aspect ≠ 0 ∧
    normalisedDepth (project ⟨Real.cos, Real.sin, Real.sqrt⟩ (ofParams (1 : ℝ) 0 1 (Real.pi / 2))
      ![0, 0, -(ofParams (1 : ℝ) 0 1 (Real.pi / 2))._state.farClipPlane, 1]) = none ∧
    normalisedDepth (project ⟨Real.cos, Real.sin, Real.sqrt⟩ (ofParams (1 : ℝ) 0 1 (Real.pi / 2))
      ![0, 0, -(ofParams (1 : ℝ) 0 1 (Real.pi / 2))._state.farClipPlane, 1]) ≠ some 1 := by
  have ht : Real.tan (Real.pi / 2 / 2) = 1 := by
    rw [show Real.pi / 2 / 2 = Real.pi / 4 by ring]
    exact Real.tan_pi_div_four
  have hw : project ⟨Real.cos, Real.sin, Real.sqrt⟩ (ofParams (1 : ℝ) 0 1 (Real.pi / 2))
      ![0, 0, -(ofParams (1 : ℝ) 0 1 (Real.pi / 2))._state.farClipPlane, 1] 3 = 0 := by
    simp [project, projection, ofParams, Matrix.mulVec, Matrix.dotProduct, Fin.sum_univ_four]
  have hnone : normalisedDepth (project ⟨Real.cos, Real.sin, Real.sqrt⟩
      (ofParams (1 : ℝ) 0 1 (Real.pi / 2))
      ![0, 0, -(ofParams (1 : ℝ) 0 1 (Real.pi / 2))._state.farClipPlane, 1]) = none := by
    unfold normalisedDepth
    rw [if_pos hw]
  refine ⟨?_, ?_, ?_, ?_, hnone, ?_⟩
  · show (0 : ℝ) < 1
    norm_num
  · show (0 : ℝ) ≠ 1
    norm_num
  · show Real.tan (Real.pi / 2 / 2) ≠ 0
    rw [ht]; norm_num
  · show (1 : ℝ) ≠ 0
    norm_num
  · rw [hnone]; simp

/-- C10 as amended (the far plane is also required to be non-zero):
`PerspCamera::updateMatrix` builds the projection of the symmetric frustum with
top = near·tan(fov/2), bottom = −top, right = top·aspect, left = −right.  In
exact real arithmetic, for near > 0, far ≠ near, far ≠ 0, tan(fov/2) ≠ 0 and
aspect ≠ 0, the off-centre terms `a` and `b` are 0, the diagonal entries are
1/(aspect·tan(fov/2)) and 1/tan(fov/2), and the projection maps (0,0,−near,1) to
normalised depth −1 and (0,0,−far,1) to normalised depth +1. -/
theorem projection_symmetric_frustum (c : PerspCamera ℝ)
    (hnear : 0 < c._state.nearClipPlane)
    (hfar : c._state.farClipPlane ≠ c._state.nearClipPlane)
    (hfar0 : c._state.farClipPlane ≠ 0)
    (htan : Real.tan (c._fieldOfViewInRadians / 2) ≠ 0)
    (hasp : c._state.viewport.aspect ≠ 0) :
    (frustum ⟨Real.cos, Real.sin, Real.sqrt⟩ c).top =
      c._state.nearClipPlane * Real.tan (c._fieldOfViewInRadians / 2) ∧
    (frustum ⟨Real.cos, Real.sin, Real.sqrt⟩ c).bottom =
      -(frustum ⟨Real.cos, Real.sin, Real.sqrt⟩ c).top ∧
    (frustum ⟨Real.cos, Real.sin, Real.sqrt⟩ c).right =
      (frustum ⟨Real.cos, Real.sin, Real.sqrt⟩ c).top * c._state.viewport.aspect ∧
    (frustum ⟨Real.cos, Real.sin, Real.sqrt⟩ c).left =
      -(frustum ⟨Real.cos, Real.sin, Real.sqrt⟩ c).right ∧
    projection ⟨Real.cos, Real.sin, Real.sqrt⟩ c 0 2 = 0 ∧
    projection ⟨Real.cos, Real.sin, Real.sqrt⟩ c 1 2 = 0 ∧
    projection ⟨Real.cos, Real.sin, Real.sqrt⟩ c 0 0 =
      1 / (c._state.viewport.aspect * Real.tan (c._fieldOfViewInRadians / 2)) ∧
    projection ⟨Real.cos, Real.sin, Real.sqrt⟩ c 1 1 =
      1 / Real.tan (c._fieldOfViewInRadians / 2) ∧
    normalisedDepth (project ⟨Real.cos, Real.sin, Real.sqrt⟩ c
      ![0, 0, -c._state.nearClipPlane, 1]) = some (-1) ∧
    normalisedDepth (project ⟨Real.cos, Real.sin, Real.sqrt⟩ c
      ![0, 0, -c._state.farClipPlane, 1]) = some 1 := by
  have htop := frustum_top c htan
  have hn : c._state.nearClipPlane ≠ 0 := hnear.ne'
  have hfn : c._state.farClipPlane - c._state.nearClipPlane ≠ 0 := sub_ne_zero.mpr hfar
  have hb : (frustum ⟨Real.cos, Real.sin, Real.sqrt⟩ c).bottom =
      -(frustum ⟨Real.cos, Real.sin, Real.sqrt⟩ c).top := rfl
  have hr : (frustum ⟨Real.cos, Real.sin, Real.sqrt⟩ c).right =
      (frustum ⟨Real.cos, Real.sin, Real.sqrt⟩ c).top * c._state.viewport.aspect := rfl
  have hl : (frustum ⟨Real.cos, Real.sin, Real.sqrt⟩ c).left =
      -(frustum ⟨Real.cos, Real.sin, Real.sqrt⟩ c).right := rfl
  refine ⟨htop, hb, hr, hl, ?_, ?_, ?_, ?_, ?_, ?_⟩
  · simp [projection, hl]
  · simp [projection, hb]
  · simp only [projection, Matrix.of_apply, Matrix.cons_val_zero, hl, hr, htop]
    field_simp
    ring
  · simp only [projection, Matrix.of_apply, Matrix.cons_val_zero, Matrix.cons_val_one,
      Matrix.head_cons, hb, htop]
    field_simp
    ring
  · have hz : project ⟨Real.cos, Real.sin, Real.sqrt⟩ c ![0, 0, -c._state.nearClipPlane, 1] 2 =
        -c._state.nearClipPlane := by
      simp [project, projection, Matrix.mulVec, Matrix.dotProduct, Fin.sum_univ_four]
      field_simp
      ring
    have hw : project ⟨Real.cos, Real.sin, Real.sqrt⟩ c ![0, 0, -c._state.nearClipPlane, 1] 3 =
        c._state.nearClipPlane := by
      simp [project, projection, Matrix.mulVec, Matrix.dotProduct, Fin.sum_univ_four]
    unfold normalisedDepth
    rw [hz, hw, if_neg hn]
    congr 1
    field_simp
  · have hz : project ⟨Real.cos, Real.sin, Real.sqrt⟩ c ![0, 0, -c._state.farClipPlane, 1] 2 =
        c._state.farClipPlane := by
      simp [project, projection, Matrix.mulVec, Matrix.dotProduct, Fin.sum_univ_four]
      field_simp
      ring
    have hw : project ⟨Real.cos, Real.sin, Real.sqrt⟩ c ![0, 0, -c._state.farClipPlane, 1] 3 =
        c._state.farClipPlane := by
      simp [project, projection, Matrix.mulVec, Matrix.dotProduct, Fin.sum_univ_four]
    unfold normalisedDepth
    rw [hz, hw, if_neg hfar0]
    congr 1
    field_simp

/-- Witness of the amended C10 at near 1, far 2, aspect 1, field of view π/2. -/
theorem projection_symmetric_frustum_witness :
    0 < (ofParams (1 : ℝ) 2 1 (Real.pi / 2))._state.nearClipPlane ∧
    (ofParams (1 : ℝ) 2 1 (Real.pi / 2))._state.farClipPlane ≠
      (ofParams (1 : ℝ) 2 1 (Real.pi / 2))._state.nearClipPlane ∧
    (ofParams (1 : ℝ) 2 1 (Real.pi / 2))._state.farClipPlane ≠ 0 ∧
    Real.tan ((ofParams (1 : ℝ) 2 1 (Real.pi / 2))._fieldOfViewInRadians / 2) ≠ 0 ∧
    (ofParams (1 : ℝ) 2 1 (Real.pi / 2))._state.viewport.aspect ≠ 0 ∧
    normalisedDepth (project ⟨Real.cos, Real.sin, Real.sqrt⟩ (ofParams (1 : ℝ) 2 1 (Real.pi / 2))
      ![0, 0, -(ofParams (1 : ℝ) 2 1 (Real.pi / 2))._state.nearClipPlane, 1]) = some (-1) ∧
    normalisedDepth (project ⟨Real.cos, Real.sin, Real.sqrt⟩ (ofParams (1 : ℝ) 2 1 (Real.pi / 2))
      ![0, 0, -(ofParams (1 : ℝ) 2 1 (Real.pi / 2))._state.farClipPlane, 1]) = some 1 := by
  have ht : Real.tan (Real.pi / 2 / 2) = 1 := by
    rw [show Real.pi / 2 / 2 = Real.pi / 4 by ring]
    exact Real.tan_pi_div_four
  have h1 : 0 < (ofParams (1 : ℝ) 2 1 (Real.pi / 2))._state.nearClipPlane := by
    show (0 : ℝ) < 1
    norm_num
  have h2 : (ofParams (1 : ℝ) 2 1 (Real.pi / 2))._state.farClipPlane ≠
      (ofParams (1 : ℝ) 2 1 (Real.pi / 2))._state.nearClipPlane := by
    show (2 : ℝ) ≠ 1
    norm_num
  have h3 : (ofParams (1 : ℝ) 2 1 (Real.pi / 2))._state.farClipPlane ≠ 0 := by
    show (2 : ℝ) ≠ 0
    norm_num
  have h4 : Real.tan ((ofParams (1 : ℝ) 2 1 (Real.pi / 2))._fieldOfViewInRadians / 2) ≠ 0 := by
    show Real.tan (Real.pi / 2 / 2) ≠ 0
    rw [ht]
    norm_num
  have h5 : (ofParams (1 : ℝ) 2 1 (Real.pi / 2))._state.viewport.aspect ≠ 0 := by
    show (1 : ℝ) ≠ 0
    norm_num
  exact ⟨h1, h2, h3, h4, h5,
    (projection_symmetric_frustum _ h1 h2 h3 h4 h5).2.2.2.2.2.2.2.2⟩

/-! ## Window registry of the GLFW application -/

open viz.GlfwApp

/-- What a successful `onCloseCurrentWindow` does to the registry. -/
theorem onCloseCurrentWindow_eq {s s1 : GlfwApp} {p : Nat}
    (h : s.onCloseCurrentWindow p = some s1) :
    p ∈ s.sWindows ∧ s1.objects = s.objects ∧ s1.sWindows = s.sWindows.erase p ∧
    (s.sCurrentWindow = some p → s1.sCurrentWindow = (s.sWindows.erase p).getLast?) ∧
    (s.sCurrentWindow ≠ some p → s1.sCurrentWindow = s.sCurrentWindow) := by
  unfold onCloseCurrentWindow at h
  by_cases hp : p ∈ s.sWindows
  · rw [if_pos hp] at h
    by_cases hc : s.sCurrentWindow = some p
    · simp only [hc, if_true] at h
      by_cases he : (s.sWindows.erase p).isEmpty = true
      · simp only [he, if_true, Option.some.injEq] at h
        subst h
        refine ⟨hp, rfl, rfl, ?_, fun hn => absurd hc hn⟩
        intro _
        have : s.sWindows.erase p = [] := List.isEmpty_iff.mp he
        simp [this]
      · have he2 : (s.sWindows.erase p).isEmpty = false := by simpa using he
        simp only [he2, Bool.false_eq_true, if_false, Option.some.injEq] at h
        subst h
        exact ⟨hp, rfl, rfl, fun _ => rfl, fun hn => absurd hc hn⟩
    · simp only [hc, if_false, Option.some.injEq] at h
      subst h
      exact ⟨hp, rfl, rfl, fun hh => absurd hh hc, fun _ => rfl⟩
  · rw [if_neg hp] at h
    cases h

/-- Closing a registered window succeeds. -/
theorem onCloseCurrentWindow_isSome {s : GlfwApp} {p : Nat} (hp : p ∈ s.sWindows) :
    ∃ s1, s.onCloseCurrentWindow p = some s1 := by
  unfold onCloseCurrentWindow
  rw [if_pos hp]
  dsimp only
  split_ifs <;> exact ⟨_, rfl⟩

/-- In every reachable state the current window is null exactly when the
registry is empty, and is a registered window otherwise. -/
theorem reachable_current {admits : GlfwApp → Nat → GlfwWindow → Prop} {s : GlfwApp}
    (h : Reachable admits s) :
    (s.sCurrentWindow = none ↔ s.sWindows = []) ∧
    ∀ p, s.sCurrentWindow = some p → p ∈ s.sWindows := by
  induction h with
  | init objects => simp [GlfwApp.init]
  | createWindow p w _ _ _ => simp [createWindow]
  | @onSetCurrentWindow s s1 p _ hstep ih =>
    unfold onSetCurrentWindow at hstep
    by_cases hp : p ∈ s.sWindows
    · rw [if_pos hp] at hstep
      cases hstep
      refine ⟨?_, ?_⟩
      · constructor
        · intro hn
          cases hn
        · intro he
          rw [he] at hp
          cases hp
      · intro q hq
        cases hq
        exact hp
    · rw [if_neg hp] at hstep
      cases hstep
  | @onCloseCurrentWindow s s1 p _ hstep ih =>
    obtain ⟨hp, _, hw, hc1, hc2⟩ := onCloseCurrentWindow_eq hstep
    by_cases hc : s.sCurrentWindow = some p
    · rw [hc1 hc, hw]
      exact ⟨List.getLast?_eq_none_iff, fun q hq => List.mem_of_getLast?_eq_some hq⟩
    · rw [hc2 hc, hw]
      have hmem : ∀ q, s.sCurrentWindow = some q → q ∈ s.sWindows.erase p := by
        intro q hq
        have hne : q ≠ p := by
          intro hqp
          exact hc (hqp ▸ hq)
        exact (List.mem_erase_of_ne hne).mpr (ih.2 q hq)
      refine ⟨?_, hmem⟩
      constructor
      · intro hn
        have hl := ih.1.mp hn
        rw [hl] at hp
        cases hp
      · intro he
        cases hcur : s.sCurrentWindow with
        | none => rfl
        | some q =>
          have := hmem q hcur
          rw [he] at this
          cases this
  | write p w _ _ ih => exact ih


/-- A render request leads from a reachable state to a reachable state. -/
theorem requestRenderAt_reachable {admits : GlfwApp → Nat → GlfwWindow → Prop} {s : GlfwApp}
    (rr : Int → Int) (w : Nat) (h : Reachable admits s) :
    Reachable admits (s.requestRenderAt rr w) :=
  Reachable.write w _ h rfl

/-- An input callback leads from a reachable state to a reachable state. -/
theorem onKey_reachable {admits : GlfwApp → Nat → GlfwWindow → Prop} {s s1 : GlfwApp}
    {rr : Int → Int} {g : Nat} (h : Reachable admits s) (hk : s.onKey rr g = some s1) :
    Reachable admits s1 := by
  unfold onKey at hk
  cases hf : s.findWindow g with
  | none => rw [hf] at hk; cases hk
  | some w =>
    rw [hf] at hk
    cases hk
    exact requestRenderAt_reachable rr w h

/-- The callbacks of `glfwWaitEvents` lead from a reachable state to a reachable
state. -/
theorem glfwWaitEvents_reachable {admits : GlfwApp → Nat → GlfwWindow → Prop}
    {rr : Int → Int} (events : List Nat) :
    ∀ {s s1 : GlfwApp}, Reachable admits s → s.glfwWaitEvents rr events = some s1 →
      Reachable admits s1 := by
  induction events with
  | nil =>
    intro s s1 h he
    cases he
    exact h
  | cons e es ih =>
    intro s s1 h he
    unfold glfwWaitEvents at he
    cases hk : s.onKey rr e with
    | none => rw [hk] at he; cases he
    | some s2 =>
      rw [hk] at he
      exact ih (onKey_reachable h hk) he

/-- Rendering a frame leads from a reachable state to a reachable state. -/
theorem renderFrame_reachable {admits : GlfwApp → Nat → GlfwWindow → Prop} {s : GlfwApp}
    (cur : Nat) (h : Reachable admits s) : Reachable admits (s.renderFrame cur) := by
  unfold renderFrame
  split_ifs
  · exact Reachable.write cur _ h rfl
  · exact h

/-- A pass through the loop of `run` leads from a reachable state to a reachable
state. -/
theorem runPass_reachable {admits : GlfwApp → Nat → GlfwWindow → Prop} {s s1 : GlfwApp}
    {rr : Int → Int} {pass : Pass} (h : Reachable admits s)
    (hp : s.runPass rr pass = some s1) : Reachable admits s1 := by
  unfold runPass at hp
  cases he : s.glfwWaitEvents rr pass.events with
  | none => rw [he] at hp; cases hp
  | some s2 =>
    rw [he] at hp
    dsimp only at hp
    have h2 := glfwWaitEvents_reachable pass.events h he
    cases hc : s2.sCurrentWindow with
    | none => rw [hc] at hp; cases hp
    | some cur =>
      rw [hc] at hp
      dsimp only at hp
      have h3 := renderFrame_reachable cur h2
      by_cases hcl : pass.shouldClose = true
      · rw [if_pos hcl] at hp
        exact Reachable.onCloseCurrentWindow cur h3 hp
      · rw [if_neg hcl] at hp
        cases hp
        exact h3

/-- The loop of `run` ends in a reachable state, and when it has returned the
current window is null. -/
theorem runLoop_reachable {admits : GlfwApp → Nat → GlfwWindow → Prop} {rr : Int → Int}
    (passes : List Pass) :
    ∀ {s : GlfwApp} {r : RunResult}, Reachable admits s → runLoop rr s passes = some r →
      Reachable admits (resultState r) ∧
      ∀ s1, r = RunResult.returned s1 → s1.sCurrentWindow = none := by
  induction passes with
  | nil =>
    intro s r h hr
    unfold runLoop at hr
    cases hc : s.sCurrentWindow with
    | none =>
      rw [hc] at hr
      cases hr
      exact ⟨h, fun s1 hs1 => by cases hs1; exact hc⟩
    | some cur =>
      rw [hc] at hr
      cases hr
      exact ⟨h, fun s1 hs1 => by cases hs1⟩
  | cons pass rest ih =>
    intro s r h hr
    unfold runLoop at hr
    cases hc : s.sCurrentWindow with
    | none =>
      rw [hc] at hr
      cases hr
      exact ⟨h, fun s1 hs1 => by cases hs1; exact hc⟩
    | some cur =>
      rw [hc] at hr
      dsimp only at hr
      cases hp : s.runPass rr pass with
      | none => rw [hp] at hr; cases hr
      | some s2 =>
        rw [hp] at hr
        exact ih (runPass_reachable h hp) hr

/-- The function `run` ends in a reachable state, and when it has returned the
current window is null. -/
theorem run_reachable {admits : GlfwApp → Nat → GlfwWindow → Prop} {rr : Int → Int}
    {passes : List Pass} {s : GlfwApp} {r : RunResult} (h : Reachable admits s)
    (hr : s.run rr passes = some r) :
    Reachable admits (resultState r) ∧
    ∀ s1, r = RunResult.returned s1 → s1.sCurrentWindow = none := by
  unfold run at hr
  cases hc : s.sCurrentWindow with
  | none =>
    rw [hc] at hr
    exact runLoop_reachable passes h hr
  | some cur =>
    rw [hc] at hr
    exact runLoop_reachable passes (requestRenderAt_reachable rr cur h) hr

/-- C11: in every state reachable from the empty registry by `createWindow`,
`onSetCurrentWindow(w)` and `onCloseCurrentWindow(w)` with `w` registered (and by
writes to window objects), the current window is null exactly when `sWindows`
is empty and is otherwise a member of `sWindows`.  `createWindow` puts the new
window last in `sWindows`, closing keeps the order of the remaining windows, and
closing the current window makes the last, that is the most recently created,
remaining window current (null if none remains); closing a non-current window
leaves the current window unchanged; and `run` can return only in a state
where no window is registered. -/
theorem registry_invariant (admits : GlfwApp → Nat → GlfwWindow → Prop) (s : GlfwApp)
    (h : Reachable admits s) :
    (s.sCurrentWindow = none ↔ s.sWindows = []) ∧
    (∀ p, s.sCurrentWindow = some p → p ∈ s.sWindows) ∧
    (∀ p w, (s.createWindow p w).sWindows = s.sWindows ++ [p] ∧
      (s.createWindow p w).sCurrentWindow = some p) ∧
    (∀ p, (s.sWindows.erase p).Sublist s.sWindows) ∧
    (∀ p, s.sCurrentWindow = some p →
      ∃ s1, s.onCloseCurrentWindow p = some s1 ∧ s1.sWindows = s.sWindows.erase p ∧
        s1.sCurrentWindow = (s.sWindows.erase p).getLast?) ∧
    (∀ p, p ∈ s.sWindows → s.sCurrentWindow ≠ some p →
      ∃ s1, s.onCloseCurrentWindow p = some s1 ∧ s1.sWindows = s.sWindows.erase p ∧
        s1.sCurrentWindow = s.sCurrentWindow) ∧
    (∀ (rr : Int → Int) (passes : List Pass) (s1 : GlfwApp),
      s.run rr passes = some (RunResult.returned s1) → s1.sWindows = []) := by
  obtain ⟨h1, h2⟩ := reachable_current h
  refine ⟨h1, h2, fun _ _ => ⟨rfl, rfl⟩, fun p => List.erase_sublist p s.sWindows, ?_, ?_, ?_⟩
  · intro p hp
    obtain ⟨s1, hs1⟩ := onCloseCurrentWindow_isSome (h2 p hp)
    obtain ⟨_, _, hw, hc1, _⟩ := onCloseCurrentWindow_eq hs1
    exact ⟨s1, hs1, hw, hc1 hp⟩
  · intro p hp hne
    obtain ⟨s1, hs1⟩ := onCloseCurrentWindow_isSome hp
    obtain ⟨_, _, hw, _, hc2⟩ := onCloseCurrentWindow_eq hs1
    exact ⟨s1, hs1, hw, hc2 hne⟩
  · intro rr passes s1 hr
    obtain ⟨hre, hnone⟩ := run_reachable h hr
    exact (reachable_current hre).1.mp (hnone s1 rfl)

/-- The registry `twoWindows` is reachable with fresh addresses and handles. -/
theorem twoWindows_reachable : Reachable freshWindow twoWindows := by
  unfold twoWindows
  refine Reachable.createWindow 1 _ (Reachable.createWindow 0 _ (Reachable.init _) ?_) ?_
  · decide
  · decide

/-- Witness of C11 at the registry `twoWindows`: closing the current window 1
makes window 0 current, closing window 0 leaves window 1 current, and `run`
returns after both windows have been closed. -/
theorem registry_invariant_witness :
    Reachable freshWindow twoWindows ∧
    twoWindows.sWindows = [0, 1] ∧ twoWindows.sCurrentWindow = some 1 ∧
    (∃ s1, twoWindows.onCloseCurrentWindow 1 = some s1 ∧ s1.sWindows = [0] ∧
      s1.sCurrentWindow = some 0) ∧
    (∃ s1, twoWindows.onCloseCurrentWindow 0 = some s1 ∧ s1.sWindows = [1] ∧
      s1.sCurrentWindow = some 1) ∧
    (∃ s1, twoWindows.run (fun _ => 1) [⟨[10], false⟩, ⟨[], true⟩, ⟨[10], true⟩] =
      some (RunResult.returned s1)) ∧
    (∀ s1, twoWindows.run (fun _ => 1) [⟨[10], false⟩, ⟨[], true⟩, ⟨[10], true⟩] =
      some (RunResult.returned s1) → s1.sWindows = []) :=
  ⟨twoWindows_reachable, rfl, rfl,
    (registry_invariant freshWindow twoWindows twoWindows_reachable).2.2.2.2.1 1 rfl,
    (registry_invariant freshWindow twoWindows twoWindows_reachable).2.2.2.2.2.1 0 (by decide)
      (by decide),
    ⟨_, rfl⟩,
    (registry_invariant freshWindow twoWindows twoWindows_reachable).2.2.2.2.2.2 (fun _ => 1) _⟩


/-- In every state reachable with fresh addresses and handles, registered
windows with the same GLFW handle are the same window. -/
theorem reachable_handles {s : GlfwApp} (h : Reachable freshWindow s) :
    ∀ p ∈ s.sWindows, ∀ q ∈ s.sWindows, s.glfwWindow p = s.glfwWindow q → p = q := by
  induction h with
  | init objects =>
    intro p hp
    cases hp
  | @createWindow s p w _ hfresh ih =>
    obtain ⟨hnew, hhandle⟩ := hfresh
    have hold : ∀ a ∈ s.sWindows, (s.createWindow p w).glfwWindow a = s.glfwWindow a := by
      intro a ha
      have hne : a ≠ p := fun hap => hnew (hap ▸ ha)
      simp [createWindow, glfwWindow, Function.update_noteq hne]
    have hself : (s.createWindow p w).glfwWindow p = w._window := by
      simp [createWindow, glfwWindow]
    intro a ha b hb hab
    have ha2 : a ∈ s.sWindows ∨ a = p := by simpa [createWindow] using ha
    have hb2 : b ∈ s.sWindows ∨ b = p := by simpa [createWindow] using hb
    rcases ha2 with ha2 | ha2 <;> rcases hb2 with hb2 | hb2
    · rw [hold a ha2, hold b hb2] at hab
      exact ih a ha2 b hb2 hab
    · subst hb2
      rw [hold a ha2, hself] at hab
      exact absurd hab (hhandle a ha2)
    · subst ha2
      rw [hold b hb2, hself] at hab
      exact absurd hab.symm (hhandle b hb2)
    · rw [ha2, hb2]
  | @onSetCurrentWindow s s1 p _ hstep ih =>
    unfold onSetCurrentWindow at hstep
    by_cases hp : p ∈ s.sWindows
    · rw [if_pos hp] at hstep
      cases hstep
      exact ih
    · rw [if_neg hp] at hstep
      cases hstep
  | @onCloseCurrentWindow s s1 p _ hstep ih =>
    obtain ⟨_, ho, hw, _, _⟩ := onCloseCurrentWindow_eq hstep
    intro a ha b hb hab
    rw [hw] at ha hb
    have ha2 := List.erase_subset p s.sWindows ha
    have hb2 := List.erase_subset p s.sWindows hb
    apply ih a ha2 b hb2
    simpa [glfwWindow, ho] using hab
  | @write s p w _ hw ih =>
    have hkeep : ∀ a, (Function.update s.objects p w a)._window = (s.objects a)._window := by
      intro a
      by_cases hap : a = p
      · subst hap
        simpa [glfwWindow] using hw
      · rw [Function.update_noteq hap]
    intro a ha b hb hab
    apply ih a ha b hb
    simpa [glfwWindow, hkeep] using hab

/-- The function `findWindow` returns the first registered window with the
queried handle. -/
theorem findWindow_eq_some_iff (s : GlfwApp) (g p : Nat) :
    s.findWindow g = some p ↔
      s.glfwWindow p = g ∧
      ∃ l1 l2, s.sWindows = l1 ++ p :: l2 ∧ ∀ q ∈ l1, s.glfwWindow q ≠ g := by
  unfold findWindow
  rw [List.find?_eq_some]
  simp

/-- The function `findWindow` returns null exactly when no registered window has
the queried handle. -/
theorem findWindow_eq_none_iff (s : GlfwApp) (g : Nat) :
    s.findWindow g = none ↔ ∀ p ∈ s.sWindows, s.glfwWindow p ≠ g := by
  unfold findWindow
  simp

/-- C12: in every reachable state (new windows get an address and a GLFW handle
that no registered window has), for the GLFW handle of every registered
window, that is of a window created by `createWindow` and not yet closed,
`findWindow` returns that very window, so the assertion `window != nullptr` of
the callbacks holds and the callback goes on to `requestRender`; `findWindow`
returns null exactly when no registered window has the queried handle, and a
non-null result is the first registered window whose handle equals the query. -/
theorem findWindow_valid (s : GlfwApp) (h : Reachable freshWindow s) :
    (∀ p ∈ s.sWindows, s.findWindow (s.glfwWindow p) = some p) ∧
    (∀ (rr : Int → Int), ∀ p ∈ s.sWindows,
      s.onKey rr (s.glfwWindow p) = some (s.requestRenderAt rr p)) ∧
    (∀ g, s.findWindow g = none ↔ ∀ p ∈ s.sWindows, s.glfwWindow p ≠ g) ∧
    (∀ g p, s.findWindow g = some p ↔
      s.glfwWindow p = g ∧
      ∃ l1 l2, s.sWindows = l1 ++ p :: l2 ∧ ∀ q ∈ l1, s.glfwWindow q ≠ g) := by
  have hfind : ∀ p ∈ s.sWindows, s.findWindow (s.glfwWindow p) = some p := by
    intro p hp
    cases hf : s.findWindow (s.glfwWindow p) with
    | none =>
      exact absurd rfl ((findWindow_eq_none_iff s _).mp hf p hp)
    | some q =>
      obtain ⟨hq, l1, l2, hl, _⟩ := (findWindow_eq_some_iff s _ q).mp hf
      have hqm : q ∈ s.sWindows := by
        rw [hl]
        simp
      rw [reachable_handles h q hqm p hp hq]
  refine ⟨hfind, ?_, findWindow_eq_none_iff s, findWindow_eq_some_iff s⟩
  intro rr p hp
  unfold onKey
  rw [hfind p hp]

/-- Witness of C12 at the registry `twoWindows`. -/
theorem findWindow_valid_witness :
    Reachable freshWindow twoWindows ∧
    twoWindows.glfwWindow 0 = 10 ∧ twoWindows.glfwWindow 1 = 11 ∧
    twoWindows.findWindow 10 = some 0 ∧ twoWindows.findWindow 11 = some 1 ∧
    twoWindows.findWindow 12 = none :=
  ⟨twoWindows_reachable, rfl, rfl,
    (findWindow_valid twoWindows twoWindows_reachable).1 0 (by decide),
    (findWindow_valid twoWindows twoWindows_reachable).1 1 (by decide),
    rfl⟩


/-- A render request keeps every window without animation and with a
non-negative count, when `requestRender` keeps counts non-negative. -/
theorem requestRenderAt_idle {rr : Int → Int} (hrr : ∀ n, 0 ≤ n → 0 ≤ rr n) {s : GlfwApp}
    (w : Nat)
    (hs : ∀ p, (s.objects p)._isAnimationEnabled = false ∧
      0 ≤ (s.objects p)._numRequestedRenderFrames) :
    ∀ p, ((s.requestRenderAt rr w).objects p)._isAnimationEnabled = false ∧
      0 ≤ ((s.requestRenderAt rr w).objects p)._numRequestedRenderFrames := by
  intro p
  unfold requestRenderAt
  by_cases hp : p = w
  · subst hp
    simp only [Function.update_same]
    exact ⟨(hs p).1, hrr _ (hs p).2⟩
  · simp only [Function.update_noteq hp]
    exact hs p

/-- Rendering a frame keeps every window without animation and with a
non-negative count. -/
theorem renderFrame_idle {s : GlfwApp} (cur : Nat)
    (hs : ∀ p, (s.objects p)._isAnimationEnabled = false ∧
      0 ≤ (s.objects p)._numRequestedRenderFrames) :
    ∀ p, ((s.renderFrame cur).objects p)._isAnimationEnabled = false ∧
      0 ≤ ((s.renderFrame cur).objects p)._numRequestedRenderFrames := by
  intro p
  unfold renderFrame
  split_ifs with hc
  · by_cases hp : p = cur
    · subst hp
      simp only [Function.update_same]
      refine ⟨(hs p).1, ?_⟩
      rw [(hs p).1] at hc
      simp only [Bool.false_or, decide_eq_true_eq] at hc
      omega
    · simp only [Function.update_noteq hp]
      exact hs p
  · exact hs p

/-- The callbacks of `glfwWaitEvents` keep every window without animation and
with a non-negative count. -/
theorem glfwWaitEvents_idle {rr : Int → Int} (hrr : ∀ n, 0 ≤ n → 0 ≤ rr n)
    (events : List Nat) :
    ∀ {s s1 : GlfwApp},
      (∀ p, (s.objects p)._isAnimationEnabled = false ∧
        0 ≤ (s.objects p)._numRequestedRenderFrames) →
      s.glfwWaitEvents rr events = some s1 →
      ∀ p, (s1.objects p)._isAnimationEnabled = false ∧
        0 ≤ (s1.objects p)._numRequestedRenderFrames := by
  induction events with
  | nil =>
    intro s s1 hs he
    cases he
    exact hs
  | cons e es ih =>
    intro s s1 hs he
    unfold glfwWaitEvents at he
    cases hk : s.onKey rr e with
    | none => rw [hk] at he; cases he
    | some s2 =>
      rw [hk] at he
      dsimp only at he
      refine ih ?_ he
      unfold onKey at hk
      cases hf : s.findWindow e with
      | none => rw [hf] at hk; cases hk
      | some w =>
        rw [hf] at hk
        cases hk
        exact requestRenderAt_idle hrr w hs

/-- A pass through the loop of `run` keeps every window without animation and
with a non-negative count. -/
theorem runPass_idle {rr : Int → Int} (hrr : ∀ n, 0 ≤ n → 0 ≤ rr n) {s s1 : GlfwApp}
    {pass : Pass}
    (hs : ∀ p, (s.objects p)._isAnimationEnabled = false ∧
      0 ≤ (s.objects p)._numRequestedRenderFrames)
    (hp : s.runPass rr pass = some s1) :
    ∀ p, (s1.objects p)._isAnimationEnabled = false ∧
      0 ≤ (s1.objects p)._numRequestedRenderFrames := by
  unfold runPass at hp
  cases he : s.glfwWaitEvents rr pass.events with
  | none => rw [he] at hp; cases hp
  | some s2 =>
    rw [he] at hp
    dsimp only at hp
    have h2 := glfwWaitEvents_idle hrr pass.events hs he
    cases hc : s2.sCurrentWindow with
    | none => rw [hc] at hp; cases hp
    | some cur =>
      rw [hc] at hp
      dsimp only at hp
      have h3 := renderFrame_idle cur h2
      by_cases hcl : pass.shouldClose = true
      · rw [if_pos hcl] at hp
        obtain ⟨_, ho, _, _, _⟩ := onCloseCurrentWindow_eq hp
        rw [ho]
        exact h3
      · rw [if_neg hcl] at hp
        cases hp
        exact h3

/-- The loop of `run` keeps every window without animation and with a
non-negative count. -/
theorem runLoop_idle {rr : Int → Int} (hrr : ∀ n, 0 ≤ n → 0 ≤ rr n) (passes : List Pass) :
    ∀ {s : GlfwApp} {r : RunResult},
      (∀ p, (s.objects p)._isAnimationEnabled = false ∧
        0 ≤ (s.objects p)._numRequestedRenderFrames) →
      runLoop rr s passes = some r →
      ∀ p, ((resultState r).objects p)._isAnimationEnabled = false ∧
        0 ≤ ((resultState r).objects p)._numRequestedRenderFrames := by
  induction passes with
  | nil =>
    intro s r hs hr
    unfold runLoop at hr
    cases hc : s.sCurrentWindow with
    | none => rw [hc] at hr; cases hr; exact hs
    | some cur => rw [hc] at hr; cases hr; exact hs
  | cons pass rest ih =>
    intro s r hs hr
    unfold runLoop at hr
    cases hc : s.sCurrentWindow with
    | none => rw [hc] at hr; cases hr; exact hs
    | some cur =>
      rw [hc] at hr
      dsimp only at hr
      cases hp : s.runPass rr pass with
      | none => rw [hp] at hr; cases hr
      | some s2 =>
        rw [hp] at hr
        exact ih (runPass_idle hrr hs hp) hr

/-- The count of the current window after lines 62 to 82 of `run`. -/
theorem renderFrame_count (s : GlfwApp) (cur : Nat) :
    ((s.renderFrame cur).objects cur)._numRequestedRenderFrames =
      if (s.objects cur)._isAnimationEnabled = true ∨
          0 < (s.objects cur)._numRequestedRenderFrames then
        (s.objects cur)._numRequestedRenderFrames - 1
      else (s.objects cur)._numRequestedRenderFrames := by
  unfold renderFrame
  by_cases hc : (s.objects cur)._isAnimationEnabled = true ∨
      0 < (s.objects cur)._numRequestedRenderFrames
  · rw [if_pos hc, if_pos (by simpa using hc)]
    simp
  · rw [if_neg hc, if_neg (by simpa using hc)]

/-- C13 fails as stated: in the registry `twoWindows` the current window 1 has
animation enabled and the non-negative count 0.  One pass through the loop of
`run`, without any event, renders a frame and leaves the count at -1 although
no request was pending; and `run` itself, where `requestRender` sets the count
to 1, leaves the count at -1 after two passes. -/
theorem run_count_negative_with_animation :
    twoWindows.sCurrentWindow = some 1 ∧
    (twoWindows.objects 1)._isAnimationEnabled = true ∧
    0 ≤ (twoWindows.objects 1)._numRequestedRenderFrames ∧
    (∃ s1, twoWindows.runPass (fun _ => 1) ⟨[], false⟩ = some s1 ∧
      s1.sCurrentWindow = some 1 ∧ (s1.objects 1)._numRequestedRenderFrames = -1) ∧
    (∃ s1, twoWindows.run (fun _ => 1) [⟨[], false⟩, ⟨[], false⟩] =
        some (RunResult.waiting s1) ∧
      s1.sCurrentWindow = some 1 ∧ (s1.objects 1)._numRequestedRenderFrames = -1) :=
  ⟨rfl, rfl, by decide, ⟨_, rfl, rfl, by decide⟩, ⟨_, rfl, rfl, by decide⟩⟩

/-- C13 as amended: in `GlfwApp::run` the count of the current window is decreased
by one exactly when a frame is rendered, that is when animation is enabled or
the count is positive.  With animation disabled for every window, and
`requestRender` never producing a negative count from a non-negative one,
starting from non-negative counts no count becomes negative, for every
sequence of passes through the loop. -/
theorem run_count_nonneg_without_animation (rr : Int → Int) (hrr : ∀ n, 0 ≤ n → 0 ≤ rr n)
    (s : GlfwApp)
    (hs : ∀ p, (s.objects p)._isAnimationEnabled = false ∧
      0 ≤ (s.objects p)._numRequestedRenderFrames)
    (passes : List Pass) (r : RunResult) (hr : s.run rr passes = some r) :
    (∀ (t : GlfwApp) (cur : Nat),
      ((t.renderFrame cur).objects cur)._numRequestedRenderFrames =
        if (t.objects cur)._isAnimationEnabled = true ∨
            0 < (t.objects cur)._numRequestedRenderFrames then
          (t.objects cur)._numRequestedRenderFrames - 1
        else (t.objects cur)._numRequestedRenderFrames) ∧
    (∀ p, 0 ≤ ((resultState r).objects p)._numRequestedRenderFrames) := by
  refine ⟨renderFrame_count, ?_⟩
  intro p
  unfold run at hr
  cases hc : s.sCurrentWindow with
  | none =>
    rw [hc] at hr
    exact (runLoop_idle hrr passes hs hr p).2
  | some cur =>
    rw [hc] at hr
    exact (runLoop_idle hrr passes (requestRenderAt_idle hrr cur hs) hr p).2

/-- Witness of the amended C13: one window without animation, `requestRender`
sets the count to 1, three passes; the count ends at 0. -/
theorem run_count_nonneg_without_animation_witness :
    (∀ n : Int, 0 ≤ n → 0 ≤ (fun _ : Int => (1 : Int)) n) ∧
    (∀ p, (((GlfwApp.init (fun _ => ⟨0, false, 0⟩)).createWindow 0 ⟨10, false, 0⟩).objects
        p)._isAnimationEnabled = false ∧
      0 ≤ (((GlfwApp.init (fun _ => ⟨0, false, 0⟩)).createWindow 0 ⟨10, false, 0⟩).objects
        p)._numRequestedRenderFrames) ∧
    (∃ s1, ((GlfwApp.init (fun _ => ⟨0, false, 0⟩)).createWindow 0 ⟨10, false, 0⟩).run
        (fun _ => 1) [⟨[], false⟩, ⟨[], false⟩, ⟨[10], false⟩] = some (RunResult.waiting s1) ∧
      (s1.objects 0)._numRequestedRenderFrames = 0 ∧
      ∀ p, 0 ≤ (s1.objects p)._numRequestedRenderFrames) := by
  have hrr : ∀ n : Int, 0 ≤ n → 0 ≤ (fun _ : Int => (1 : Int)) n := fun _ _ => show (0 : Int) ≤ 1 by decide
  have hs : ∀ p,
      (((GlfwApp.init (fun _ => ⟨0, false, 0⟩)).createWindow 0 ⟨10, false, 0⟩).objects
        p)._isAnimationEnabled = false ∧
      0 ≤ (((GlfwApp.init (fun _ => ⟨0, false, 0⟩)).createWindow 0 ⟨10, false, 0⟩).objects
        p)._numRequestedRenderFrames := by
    intro p
    by_cases hp : p = 0
    · subst hp
      simp [createWindow, GlfwApp.init]
    · simp [createWindow, GlfwApp.init, Function.update_noteq hp]
  exact ⟨hrr, hs, _, rfl, by decide,
    (run_count_nonneg_without_animation (fun _ => 1) hrr _ hs
      [⟨[], false⟩, ⟨[], false⟩, ⟨[10], false⟩] _ rfl).2⟩

end jet
